import Mathlib

/-!
Shallow embedding of the PROYECTO_PROG_RUTA front-end view models.

The repository is a React front-end for a road-safety reporting system.
We embed the view-model logic of its pages as pure Lean functions and
state-transition systems:

* `ReportesDelito` (crime-report CRUD page): form draft, modal, submit,
  reset, edit, list load with filters.
* `Siniestros` (traffic-incident CRUD page, `src/unnamed/part_000`):
  form draft, payload construction, submit.
* `RutaSegura` (aggregation dashboard, two variants in the sources):
  batched parallel loads via `Promise.all`, tops, comparison, fallback
  sample data.

JavaScript dynamic values that cross the API boundary are modelled by
`JsValue`; machine floats in the observed data are exact decimals, so we
model numbers as `ℚ`.
-/

set_option autoImplicit false

namespace RutaProg

/-- A JavaScript value as it appears in a JSON request body: `null`, a
number, or a string.  (Booleans/objects never occur in the payload fields
the claims are about.) -/
inductive JsValue where
  | jnull : JsValue
  | jnum : ℚ → JsValue
  | jstr : String → JsValue
deriving DecidableEq

/-- Whether a `JsValue` is a number (JS `typeof x === "number"`). -/
def JsValue.isNum : JsValue → Bool
  | .jnum _ => true
  | _ => false

/-- JS `Number(s)` on the digit strings produced by the form controls
(select values are decimal ids; `Number("") = 0`). -/
def jsNumber (s : String) : ℚ :=
  match s.toNat? with
  | some n => (n : ℚ)
  | none => 0

/-- JS `Number(v)` on a dynamic value: numbers pass through, strings are
parsed, `null` converts to 0. -/
def jsNumberOf : JsValue → ℚ
  | .jnum q => q
  | .jstr s => jsNumber s
  | .jnull => 0

/-- JS `parseInt(s)` on the decimal id strings produced by the selects. -/
def jsParseInt (s : String) : Int :=
  match s.toNat? with
  | some n => (n : Int)
  | none => 0

/-- The string the DOM assigns to a controlled form control whose React
value is `v`: strings are used as-is, numbers are stringified, `null`
renders empty. -/
def jsDomValue : JsValue → String
  | .jstr s => s
  | .jnum q => if q.den = 1 then toString q.num else toString q
  | .jnull => ""

/-- User-visible feedback emitted by a handler: an inline error banner
(`setError`), a blocking `alert`, or nothing at all. -/
inductive Feedback where
  | banner : String → Feedback
  | alertMsg : String → Feedback
  | silent : Feedback
deriving DecidableEq

/-- Whether a `Feedback` is user-visible. -/
def Feedback.isVisible : Feedback → Bool
  | .silent => false
  | _ => true

/-! ### Reference data (loaded from the backend) -/

/-- A street record from `avenidasService.getAll` (`/avenidas`). -/
structure Avenida where
  id : Nat
  nombre : String
deriving DecidableEq

/-- An incident-type record from `/tipos-siniestro`. -/
structure TipoSiniestro where
  id : Nat
  nombre : String
deriving DecidableEq

/-- A crime report as returned by `/reportes-delito`.  `usuario_id` is a
backend number; `descripcion` is nullable. -/
structure Reporte where
  id : Nat
  fecha : String
  hora : String
  avenida_id : Nat
  tipo_delito : String
  nivel_peligrosidad : String
  descripcion : Option String
  usuario_id : ℚ
deriving DecidableEq

/-! ### ReportesDelito page: form draft and component state
(`src/frontend/src/pages/ReportesDelito.jsx`) -/

/-- The `formData` draft of the ReportesDelito page.  Text inputs and
selects store strings; `avenida_id` is dynamic (the select stores the
string it was given, `handleEdit` stores the record's numeric id);
`usuario_id` is a number. -/
structure ReporteForm where
  fecha : String
  hora : String
  avenida_id : JsValue
  tipo_delito : String
  nivel_peligrosidad : String
  descripcion : String
  usuario_id : ℚ
deriving DecidableEq

/-- The initial `formData` (also what `resetForm` installs):
`usuario_id` hardcoded to 1. -/
def initialFormData : ReporteForm :=
  { fecha := ""
    hora := ""
    avenida_id := .jstr ""
    tipo_delito := "robo"
    nivel_peligrosidad := "media"
    descripcion := ""
    usuario_id := 1 }

/-- The draft `handleEdit` installs from an existing report
(`descripcion: reporte.descripcion || ''`, `usuario_id` preserved). -/
def formFromReporte (r : Reporte) : ReporteForm :=
  { fecha := r.fecha
    hora := r.hora
    avenida_id := .jnum (r.avenida_id : ℚ)
    tipo_delito := r.tipo_delito
    nivel_peligrosidad := r.nivel_peligrosidad
    descripcion := r.descripcion.getD ""
    usuario_id := r.usuario_id }

/-- The form fields the ReportesDelito JSX exposes an `onChange` handler
for.  There is no control bound to `usuario_id`. -/
inductive RDField where
  | fecha | hora | avenida_id | tipo_delito | nivel_peligrosidad | descripcion
deriving DecidableEq

/-- `setFormData({ ...formData, field: value })` for each field control;
the avenida select stores its string value. -/
def setRDField (f : ReporteForm) : RDField → String → ReporteForm
  | .fecha, v => { f with fecha := v }
  | .hora, v => { f with hora := v }
  | .avenida_id, v => { f with avenida_id := .jstr v }
  | .tipo_delito, v => { f with tipo_delito := v }
  | .nivel_peligrosidad, v => { f with nivel_peligrosidad := v }
  | .descripcion, v => { f with descripcion := v }

/-- Component state of the ReportesDelito page (the pieces the claims
mention). -/
structure RDState where
  formData : ReporteForm
  editingReporte : Option Reporte
  showModal : Bool
  error : Option String
deriving DecidableEq

/-- State on mount. -/
def rdInit : RDState :=
  { formData := initialFormData
    editingReporte := none
    showModal := false
    error := none }

/-- The request body `handleSubmit` sends for a crime report: `formData`
is passed to `create`/`update` verbatim, field for field. -/
structure ReportePayload where
  fecha : JsValue
  hora : JsValue
  avenida_id : JsValue
  tipo_delito : JsValue
  nivel_peligrosidad : JsValue
  descripcion : JsValue
  usuario_id : JsValue
deriving DecidableEq

/-- `reportesDelitoService.create(formData)` /
`.update(id, formData)`: the draft is serialized as-is — strings stay
strings (including the empty string) and no field is coerced. -/
def reportePayload (f : ReporteForm) : ReportePayload :=
  { fecha := .jstr f.fecha
    hora := .jstr f.hora
    avenida_id := f.avenida_id
    tipo_delito := .jstr f.tipo_delito
    nivel_peligrosidad := .jstr f.nivel_peligrosidad
    descripcion := .jstr f.descripcion
    usuario_id := .jnum f.usuario_id }

/-- `handleSubmit` of ReportesDelito, given whether the awaited
create/update succeeded.  On success: close the modal, reset the form,
reload.  On failure: `alert('Error al guardar el reporte')` and nothing
else — the catch block touches no state. -/
def handleSubmitRD (s : RDState) (ok : Bool) : RDState × Feedback :=
  if ok then
    ({ s with showModal := false, formData := initialFormData, editingReporte := none },
      .silent)
  else
    (s, .alertMsg "Error al guardar el reporte")

/-- Events the ReportesDelito component reacts to. -/
inductive RDEvent where
  | editar : Reporte → RDEvent
  | reset : RDEvent
  | nuevo : RDEvent
  | campo : RDField → String → RDEvent
  | submit : Bool → RDEvent
  | cancelar : RDEvent

/-- One step of the ReportesDelito component: `handleEdit`, `resetForm`,
`handleNuevoReporte`, a field `onChange`, `handleSubmit`, and the modal's
cancel button (`setShowModal(false); resetForm()`). -/
def rdStep (s : RDState) : RDEvent → RDState
  | .editar r =>
      { s with editingReporte := some r, formData := formFromReporte r, showModal := true }
  | .reset =>
      { s with formData := initialFormData, editingReporte := none }
  | .nuevo =>
      { s with formData := initialFormData, editingReporte := none, showModal := true }
  | .campo f v =>
      { s with formData := setRDField s.formData f v }
  | .submit ok =>
      (handleSubmitRD s ok).1
  | .cancelar =>
      { s with showModal := false, formData := initialFormData, editingReporte := none }

/-- Run the component from a state through a list of events. -/
def rdRun (s : RDState) (evs : List RDEvent) : RDState :=
  evs.foldl rdStep s

/-! ### Siniestros page (`src/unnamed/part_000`): form and payload -/

/-- The `form` draft of the Siniestros page.  Inputs store strings; the
two selects are dynamic like ReportesDelito's (`handleEdit` stores the
record's numeric ids, `onChange` stores select strings). -/
structure SiniestroForm where
  id : Option Nat
  fecha : String
  hora : String
  avenida_id : JsValue
  tipo_id : JsValue
  nivel_gravedad : String
  victimas_fatales : JsValue
  heridos : JsValue
  num_vehiculos : JsValue
  observaciones : String
deriving DecidableEq

/-- Initial / `resetForm` draft of the Siniestros page. -/
def initialSinForm : SiniestroForm :=
  { id := none
    fecha := ""
    hora := ""
    avenida_id := .jstr ""
    tipo_id := .jstr ""
    nivel_gravedad := "media"
    victimas_fatales := .jnum 0
    heridos := .jnum 0
    num_vehiculos := .jnum 0
    observaciones := "" }

/-- The request body built by the Siniestros `handleSubmit`:
`avenida_id: Number(form.avenida_id)`, `tipo_id: Number(form.tipo_id)`,
`fecha: form.fecha || null`, `hora: form.hora || null`,
`observaciones: form.observaciones || null`,
counters `Number(x) || 0`. -/
structure SiniestroPayload where
  fecha : JsValue
  hora : JsValue
  avenida_id : JsValue
  tipo_id : JsValue
  nivel_gravedad : JsValue
  victimas_fatales : JsValue
  heridos : JsValue
  num_vehiculos : JsValue
  observaciones : JsValue
deriving DecidableEq

/-- `x || null` on a string field: the empty string is falsy. -/
def strOrNull (s : String) : JsValue :=
  if s = "" then .jnull else .jstr s

/-- `Number(x) || 0`: 0 (and an unparsable input, which we model as 0)
falls back to 0, any other number passes through. -/
def numOrZero (v : JsValue) : ℚ :=
  jsNumberOf v

/-- The payload construction of the Siniestros `handleSubmit`. -/
def siniestroPayload (f : SiniestroForm) : SiniestroPayload :=
  { fecha := strOrNull f.fecha
    hora := strOrNull f.hora
    avenida_id := .jnum (jsNumberOf f.avenida_id)
    tipo_id := .jnum (jsNumberOf f.tipo_id)
    nivel_gravedad := .jstr f.nivel_gravedad
    victimas_fatales := .jnum (numOrZero f.victimas_fatales)
    heridos := .jnum (numOrZero f.heridos)
    num_vehiculos := .jnum (numOrZero f.num_vehiculos)
    observaciones := strOrNull f.observaciones }

/-- Component state of the Siniestros page (pieces the claims mention). -/
structure SinState where
  form : SiniestroForm
  error : Option String
deriving DecidableEq

/-- The Siniestros `handleSubmit`, given whether the awaited request
succeeded.  It begins with `setError(null)`; on success it reloads and
`resetForm()`; on failure it sets the error state to the server detail
and alerts — the `form` draft itself is untouched. -/
def handleSubmitSin (s : SinState) (ok : Bool) (detail : String) : SinState × Feedback :=
  if ok then
    ({ form := initialSinForm, error := none }, .silent)
  else
    ({ s with error := some detail }, .alertMsg detail)

/-! ### RutaSegura comparison (`compararAvenidas`, second variant) -/

/-- What a click on "Comparar" produces: either a validation `alert`
with no network traffic, or the single comparison request. -/
inductive CompareAction where
  | validation : String → CompareAction
  | request : Int → Int → CompareAction
deriving DecidableEq

/-- Whether a `CompareAction` issues a network call. -/
def CompareAction.issuesRequest : CompareAction → Bool
  | .request _ _ => true
  | .validation _ => false

/-- Whether a `CompareAction` shows a validation message. -/
def CompareAction.showsValidation : CompareAction → Bool
  | .validation _ => true
  | .request _ _ => false

/-- `compararAvenidas` of the RutaSegura page: the two selections are
select-value strings (empty when unset).  `!avenida1 || !avenida2`
rejects an unset side, `avenida1 === avenida2` rejects equal ids, and
only then is `reportesService.compararAvenidas(parseInt(a1),
parseInt(a2))` issued. -/
def compararAvenidas (avenida1 avenida2 : String) : CompareAction :=
  if avenida1 = "" ∨ avenida2 = "" then
    .validation "Por favor selecciona dos avenidas para comparar"
  else if avenida1 = avenida2 then
    .validation "Debes seleccionar dos avenidas diferentes"
  else
    .request (jsParseInt avenida1) (jsParseInt avenida2)

/-! ### RutaSegura dashboard, first variant
(`src/frontend/src/pages/RutaSegura.jsx`): one `Promise.all` batch of
four reads with a single catch. -/

/-- A ranked street row of the safety index
(`indice_peligrosidad` is a decimal). -/
structure AvenidaIdx where
  id : Nat
  nombre : String
  zona : String
  total_siniestros : Nat
  total_delitos : Nat
  indice_peligrosidad : ℚ
  nivel_riesgo : String
deriving DecidableEq

/-- The `/reportes/estadisticas-seguridad` response body. -/
structure Stats where
  total_avenidas : Nat
  total_siniestros : Nat
  total_fallecidos : Nat
  total_heridos : Nat
  total_delitos : Nat
  promedio_indice : ℚ
deriving DecidableEq

/-- Render state of the first RutaSegura variant. -/
structure RSState where
  estadisticas : Option Stats
  topPeligrosas : List AvenidaIdx
  topSeguras : List AvenidaIdx
  todasAvenidas : List AvenidaIdx
  cargando : Bool
  error : Option String
deriving DecidableEq

/-- State on mount. -/
def rsInit : RSState :=
  { estadisticas := none
    topPeligrosas := []
    topSeguras := []
    todasAvenidas := []
    cargando := true
    error := none }

/-- The outcome of the four parallel reads `cargarDatos` issues
(statistics, top dangerous, top safe, full ranked list). -/
structure BatchOutcome where
  stats : Except Unit Stats
  peligrosas : Except Unit (List AvenidaIdx)
  seguras : Except Unit (List AvenidaIdx)
  todas : Except Unit (List AvenidaIdx)

/-- Whether every read of the batch succeeded (`Promise.all` resolves
exactly when all of its promises do). -/
def batchAllOk (b : BatchOutcome) : Bool :=
  match b.stats, b.peligrosas, b.seguras, b.todas with
  | .ok _, .ok _, .ok _, .ok _ => true
  | _, _, _, _ => false

/-- `cargarDatos` of the first RutaSegura variant: `await Promise.all`
of the four reads inside one `try`.  Only when all four resolve are the
four `setX` commits reached; if any read rejects, control jumps to the
single `catch`, which sets one error message and commits none of the
datasets. -/
def cargarDatosRS (s : RSState) (b : BatchOutcome) : RSState :=
  match b.stats, b.peligrosas, b.seguras, b.todas with
  | .ok st, .ok p, .ok sg, .ok t =>
      { estadisticas := some st
        topPeligrosas := p
        topSeguras := sg
        todasAvenidas := t
        cargando := false
        error := none }
  | _, _, _, _ =>
      { s with cargando := false
               error := some "Error al cargar los datos. Por favor, intenta nuevamente." }

/-! ### RutaSegura dashboard, second variant (appended page in
`src/frontend/src/pages/ReportesDelito.jsx`, lines 519-1028): list load
with hardcoded fallback, separate tops batch. -/

/-- Render state of the second RutaSegura variant (pieces the claims
mention). -/
structure RS2State where
  avenidas : List AvenidaIdx
  topSeguras : List AvenidaIdx
  topPeligrosas : List AvenidaIdx
  loading : Bool
  error : Option String
deriving DecidableEq

/-- State on mount. -/
def rs2Init : RS2State :=
  { avenidas := []
    topSeguras := []
    topPeligrosas := []
    loading := true
    error := none }

/-- The three hardcoded sample records the catch block of `cargarDatos`
installs ("Datos de ejemplo para desarrollo"). -/
def fallbackAvenidas : List AvenidaIdx :=
  [ { id := 1
      nombre := "Av. Perón"
      zona := "Centro"
      total_siniestros := 45
      total_delitos := 28
      indice_peligrosidad := (85 : ℚ) / 10
      nivel_riesgo := "alto" }
  , { id := 2
      nombre := "Calle Rivadavia"
      zona := "Norte"
      total_siniestros := 12
      total_delitos := 8
      indice_peligrosidad := (32 : ℚ) / 10
      nivel_riesgo := "bajo" }
  , { id := 3
      nombre := "Ruta 38"
      zona := "Este"
      total_siniestros := 32
      total_delitos := 15
      indice_peligrosidad := (68 : ℚ) / 10
      nivel_riesgo := "medio" } ]

/-- `cargarDatos` of the second RutaSegura variant when the
`getIndiceSeguridad` read resolves: commit `response.avenidas`. -/
def cargarDatosRS2Ok (s : RS2State) (data : List AvenidaIdx) : RS2State :=
  { s with avenidas := data, loading := false, error := none }

/-- `cargarDatos` of the second RutaSegura variant when the read
rejects: set the error banner text and replace the list with the three
hardcoded sample records. -/
def cargarDatosRS2Fail (s : RS2State) : RS2State :=
  { s with
      loading := false
      error := some "Error al cargar el índice de seguridad. Verifica que el backend esté corriendo."
      avenidas := fallbackAvenidas }

/-- `cargarTops` of the second RutaSegura variant: a `Promise.all` of
the two top-5 reads inside one `try`; both commits happen only when both
resolve, and the `catch` only logs to the console (no state change, no
user-visible message). -/
def cargarTopsRS2 (s : RS2State)
    (seguras peligrosas : Except Unit (List AvenidaIdx)) : RS2State × Feedback :=
  match seguras, peligrosas with
  | .ok sg, .ok p => ({ s with topSeguras := sg, topPeligrosas := p }, .silent)
  | _, _ => (s, .silent)

/-- The street names the main table renders, top to bottom: the rows are
`avenidas.map(...)` in array order — the component applies no sorting of
its own. -/
def displayedNombres (l : List AvenidaIdx) : List String :=
  l.map (fun a => a.nombre)

/-- The danger indices the main table renders, top to bottom. -/
def displayedIndices (l : List AvenidaIdx) : List ℚ :=
  l.map (fun a => a.indice_peligrosidad)

/-- Modelled from the spec: the danger-descending ordering requested via
`orden=peligrosidad` is computed by the backend `/reportes/indice-seguridad`
endpoint, which is part of this repository but absent from `src/`
(only the front-end caller is present).  Per the spec, it sorts the
street summaries by danger index, highest first — insert step. -/
def insertDesc (a : AvenidaIdx) : List AvenidaIdx → List AvenidaIdx
  | [] => [a]
  | b :: t =>
      if b.indice_peligrosidad ≤ a.indice_peligrosidad then a :: b :: t
      else b :: insertDesc a t

/-- Modelled from the spec: sorting by danger descending (see
`insertDesc`). -/
def sortPeligrosidadDesc : List AvenidaIdx → List AvenidaIdx
  | [] => []
  | a :: t => insertDesc a (sortPeligrosidadDesc t)

/-! ### ReportesDelito list load and the filter race -/

/-- The filter state of the ReportesDelito page (select values; empty
means "all"). -/
structure Filtros where
  tipo_delito : String
  nivel_peligrosidad : String
  avenida_id : String
deriving DecidableEq

/-- Filters on mount. -/
def filtrosInit : Filtros :=
  { tipo_delito := "", nivel_peligrosidad := "", avenida_id := "" }

/-- The list-related state of the ReportesDelito page. -/
structure RDListState where
  filtros : Filtros
  reportes : List Reporte
deriving DecidableEq

/-- Asynchronous events of the list lifecycle: a filter change (which
re-runs the `useEffect` and issues a new `getAll` for the new filter
snapshot), and the arrival of a response carrying the snapshot it was
issued for. -/
inductive LEvent where
  | changeFiltros : Filtros → LEvent
  | arrive : Filtros → List Reporte → LEvent

/-- One step of the list lifecycle.  `cargarDatos` commits an arriving
response with `setReportes(data)` unconditionally — the code keeps no
request token and never compares the response's filter snapshot with the
current `filtros`. -/
def lstep (s : RDListState) : LEvent → RDListState
  | .changeFiltros f => { s with filtros := f }
  | .arrive _ data => { s with reportes := data }

/-- Run the list lifecycle through a list of events. -/
def lrun (s : RDListState) (evs : List LEvent) : RDListState :=
  evs.foldl lstep s

/-- Helper for `validTrace`: `issued` accumulates the filter snapshots a
request has been issued for (one on mount, one per filter change). -/
def validTraceAux (server : Filtros → List Reporte) (issued : List Filtros) :
    List LEvent → Bool
  | [] => true
  | .changeFiltros f :: t => validTraceAux server (f :: issued) t
  | .arrive snap data :: t =>
      decide (snap ∈ issued) && decide (data = server snap) &&
        validTraceAux server issued t

/-- A trace is valid for a (deterministic, quiescent) backend `server`
when every arriving response was issued for some earlier filter snapshot
(the mount issues one for the initial filters) and carries exactly the
data the backend serves for that snapshot. -/
def validTrace (server : Filtros → List Reporte) (init : Filtros)
    (evs : List LEvent) : Bool :=
  validTraceAux server [init] evs

/-! ### Failure surfacing at every view-model call site -/

/-- Every place a view model awaits an API call inside a `try`:
ReportesDelito (`rd`), first RutaSegura variant (`rs`), second
RutaSegura variant (`rs2`), Siniestros (`sin`). -/
inductive CallSite where
  | rdCargarDatos
  | rdCargarAvenidas
  | rdHandleSubmit
  | rdHandleDelete
  | rsCargarDatos
  | rs2CargarDatos
  | rs2CargarTops
  | rs2CompararAvenidas
  | sinCargarDatosIniciales
  | sinFetchSiniestros
  | sinHandleSubmit
  | sinHandleDelete
deriving DecidableEq

/-- Whether the call site wraps the awaited call in a `try`/`catch` (so
a rejection never escapes as an unhandled rejection).  Every site in the
sources does. -/
def caught : CallSite → Bool := fun _ => true

/-- What each site's `catch` block surfaces to the user.  Sites that
call `setError` with a rendered message produce a banner; sites that
call `alert` produce an alert; `cargarAvenidas` (ReportesDelito) and
`cargarTops` (second RutaSegura) only `console.error` — nothing the user
sees. -/
def onFailure : CallSite → Feedback
  | .rdCargarDatos => .banner "Error al cargar los reportes delictivos"
  | .rdCargarAvenidas => .silent
  | .rdHandleSubmit => .alertMsg "Error al guardar el reporte"
  | .rdHandleDelete => .alertMsg "Error al eliminar el reporte"
  | .rsCargarDatos => .banner "Error al cargar los datos. Por favor, intenta nuevamente."
  | .rs2CargarDatos =>
      .banner "Error al cargar el índice de seguridad. Verifica que el backend esté corriendo."
  | .rs2CargarTops => .silent
  | .rs2CompararAvenidas => .alertMsg "Error al comparar las avenidas"
  | .sinCargarDatosIniciales => .banner "Error al cargar datos"
  | .sinFetchSiniestros => .banner "Error al cargar siniestros"
  | .sinHandleSubmit => .alertMsg "Error al guardar"
  | .sinHandleDelete => .alertMsg "Error al eliminar el siniestro"

/-! ### Foreign-key resolution through the form selects -/

/-- The option values of the avenida select: the empty placeholder
(`Seleccionar...`) plus one option per loaded street, valued by its id
(`value={avenida.id}` — stringified by the DOM). -/
def avenidaOptions (avenidas : List Avenida) : List String :=
  "" :: avenidas.map (fun a => toString a.id)

/-- The option values of the incident-type select of the Siniestros
form. -/
def tipoOptions (tipos : List TipoSiniestro) : List String :=
  "" :: tipos.map (fun t => toString t.id)

/-- The value the DOM reports for a controlled select: the React value
when it matches one of the rendered options, otherwise the empty
selection (an unmatched value leaves the select with no selected
option). -/
def effectiveValue (opts : List String) (v : String) : String :=
  if v ∈ opts then v else ""

/-- Whether the browser lets the ReportesDelito form fire `onSubmit`:
all controls marked `required` (fecha, hora, avenida, tipo, nivel) must
have a non-empty DOM value; the avenida select's DOM value is its
effective value against the loaded street list. -/
def rdSubmitFires (avenidas : List Avenida) (f : ReporteForm) : Bool :=
  (!(f.fecha == "")) && (!(f.hora == "")) &&
    (!(effectiveValue (avenidaOptions avenidas) (jsDomValue f.avenida_id) == "")) &&
    (!(f.tipo_delito == "")) && (!(f.nivel_peligrosidad == ""))

/-- Whether the browser lets the Siniestros form fire `onSubmit`: the
`required` controls are fecha, the avenida select, the tipo select and
nivel_gravedad. -/
def sinSubmitFires (avenidas : List Avenida) (tipos : List TipoSiniestro)
    (f : SiniestroForm) : Bool :=
  (!(f.fecha == "")) &&
    (!(effectiveValue (avenidaOptions avenidas) (jsDomValue f.avenida_id) == "")) &&
    (!(effectiveValue (tipoOptions tipos) (jsDomValue f.tipo_id) == "")) &&
    (!(f.nivel_gravedad == ""))

/-! ### Concrete inputs used to settle the claims -/

/-- A ranked street row used as a fetched dataset in the batch
scenarios. -/
def avDemo : AvenidaIdx :=
  { id := 9
    nombre := "Av. Demo"
    zona := "Centro"
    total_siniestros := 1
    total_delitos := 1
    indice_peligrosidad := 5
    nivel_riesgo := "medio" }

/-- A batch outcome in which the statistics read fails while the three
list reads succeed with data. -/
def batchStatsFail : BatchOutcome :=
  { stats := .error ()
    peligrosas := .ok [avDemo]
    seguras := .ok [avDemo]
    todas := .ok [avDemo] }

/-- A crime report matching the `tipo_delito = "robo"` filter. -/
def repRobo : Reporte :=
  { id := 1
    fecha := "2024-05-01"
    hora := "10:00"
    avenida_id := 1
    tipo_delito := "robo"
    nivel_peligrosidad := "alta"
    descripcion := none
    usuario_id := 1 }

/-- An existing crime report owned by user 7, used to exercise the
edit path. -/
def repDemo : Reporte :=
  { id := 2
    fecha := "2024-05-02"
    hora := "11:00"
    avenida_id := 3
    tipo_delito := "hurto"
    nivel_peligrosidad := "media"
    descripcion := some "x"
    usuario_id := 7 }

/-- A deterministic backend used in the race scenario: the `"robo"`
filter matches one report, any other filter set matches none. -/
def server0 (f : Filtros) : List Reporte :=
  if f.tipo_delito = "robo" then [repRobo] else []

/-- The filter set after the user picks `tipo_delito = "robo"`. -/
def filtrosRobo : Filtros :=
  { tipo_delito := "robo", nivel_peligrosidad := "", avenida_id := "" }

/-- The race interleaving: the mount issues a request for the initial
(empty) filters; the user then selects the `"robo"` filter, issuing a
second request; the `"robo"` response arrives first and the stale mount
response arrives last. -/
def staleTrace : List LEvent :=
  [ .changeFiltros filtrosRobo
  , .arrive filtrosRobo (server0 filtrosRobo)
  , .arrive filtrosInit (server0 filtrosInit) ]

/-- The list state on mount. -/
def rdlInit : RDListState :=
  { filtros := filtrosInit, reportes := [] }

/-- A crime-report draft filled through the form controls, with the
optional description left empty. -/
def draftEmptyDesc : ReporteForm :=
  { fecha := "2024-05-01"
    hora := "10:00"
    avenida_id := .jstr "3"
    tipo_delito := "robo"
    nivel_peligrosidad := "media"
    descripcion := ""
    usuario_id := 1 }

/-- A traffic-incident draft filled through the form controls, with the
optional observations left empty. -/
def sinDraftEmptyObs : SiniestroForm :=
  { initialSinForm with
      fecha := "2024-05-01"
      avenida_id := .jstr "3"
      tipo_id := .jstr "2" }

/-- A loaded street reference list containing the street with id 3. -/
def avLoaded : List Avenida :=
  [{ id := 3, nombre := "Av. Tres" }]

/-- A loaded incident-type reference list containing the type with
id 2. -/
def tipLoaded : List TipoSiniestro :=
  [{ id := 2, nombre := "Choque" }]

/-- The user-id invariant of the ReportesDelito component: with no
report under edit the draft carries the hardcoded `usuario_id = 1`, and
under edit it carries the edited report's own user id. -/
def rdInv (s : RDState) : Prop :=
  (s.editingReporte = none → s.formData.usuario_id = 1) ∧
  (∀ r, s.editingReporte = some r → s.formData.usuario_id = r.usuario_id)

/-! ### Helper lemmas -/

/-- A non-empty effective select value is the React value itself, and
that value is one of the non-placeholder options. -/
theorem mem_of_effectiveValue_ne (l : List String) (v : String)
    (h : ¬ effectiveValue ("" :: l) v = "") : v ∈ l := by
  by_cases hm : v ∈ ("" :: l)
  · have hv : effectiveValue ("" :: l) v = v := by simp [effectiveValue, hm]
    rcases List.mem_cons.mp hm with h0 | h1
    · exact absurd (hv.trans h0) h
    · exact h1
  · exact absurd (by simp [effectiveValue, hm]) h

/-- `setRDField` never touches `usuario_id` — the JSX has no control
bound to it. -/
theorem setRDField_usuario_id (f : ReporteForm) (fld : RDField) (v : String) :
    (setRDField f fld v).usuario_id = f.usuario_id := by
  cases fld <;> rfl

/-- Every component step preserves the user-id invariant. -/
theorem rdInv_step (s : RDState) (e : RDEvent) (h : rdInv s) : rdInv (rdStep s e) := by
  cases e with
  | editar r =>
      refine ⟨fun hn => by simp [rdStep] at hn, fun q hq => ?_⟩
      simp only [rdStep, Option.some.injEq] at hq
      subst hq
      rfl
  | reset => exact ⟨fun _ => rfl, fun q hq => by simp [rdStep] at hq⟩
  | nuevo => exact ⟨fun _ => rfl, fun q hq => by simp [rdStep] at hq⟩
  | campo fld v =>
      refine ⟨fun hn => ?_, fun q hq => ?_⟩
      · have := h.1 (by simpa [rdStep] using hn)
        simpa [rdStep, setRDField_usuario_id] using this
      · have := h.2 q (by simpa [rdStep] using hq)
        simpa [rdStep, setRDField_usuario_id] using this
  | submit ok =>
      cases ok with
      | true => exact ⟨fun _ => rfl, fun q hq => by simp [rdStep, handleSubmitRD] at hq⟩
      | false => exact h
  | cancelar => exact ⟨fun _ => rfl, fun q hq => by simp [rdStep] at hq⟩

/-- The user-id invariant holds along every run. -/
theorem rdInv_run (s : RDState) (h : rdInv s) (evs : List RDEvent) :
    rdInv (rdRun s evs) := by
  induction evs generalizing s with
  | nil => exact h
  | cons e t ih => exact ih (rdStep s e) (rdInv_step s e h)

/-- The invariant holds on mount. -/
theorem rdInv_init : rdInv rdInit :=
  ⟨fun _ => rfl, fun r hr => by simp [rdInit] at hr⟩

/-- Appending one more arrival to any run commits exactly that
arrival's data. -/
theorem lrun_append_arrive (s : RDListState) (evs : List LEvent)
    (snap : Filtros) (data : List Reporte) :
    (lrun s (evs ++ [.arrive snap data])).reportes = data := by
  simp [lrun, List.foldl_append, lstep]

/-! ### Claim theorems -/

/-- C2: for every pair of comparison selections, `compararAvenidas`
rejects an unset or equal pair with a validation message and no network
call, and issues the single comparison request exactly when both ids
are set and distinct. -/
theorem compararAvenidas_validates (a1 a2 : String) :
    (a1 = "" ∨ a2 = "" ∨ a1 = a2 →
      (compararAvenidas a1 a2).issuesRequest = false ∧
      (compararAvenidas a1 a2).showsValidation = true) ∧
    (¬ a1 = "" → ¬ a2 = "" → ¬ a1 = a2 →
      (compararAvenidas a1 a2).issuesRequest = true ∧
      (compararAvenidas a1 a2).showsValidation = false) := by
  constructor
  · intro h
    rcases h with h | h | h
    · simp [compararAvenidas, h, CompareAction.issuesRequest, CompareAction.showsValidation]
    · simp [compararAvenidas, h, CompareAction.issuesRequest, CompareAction.showsValidation]
    · subst h
      by_cases h1 : a1 = "" <;>
        simp [compararAvenidas, h1, CompareAction.issuesRequest, CompareAction.showsValidation]
  · intro h1 h2 h3
    simp [compararAvenidas, h1, h2, h3, CompareAction.issuesRequest,
      CompareAction.showsValidation]

/-- Witness for C2: selecting the same street on both sides is rejected
without a request, and two distinct streets produce the request. -/
theorem compararAvenidas_validates_witness :
    ((compararAvenidas "1" "1").issuesRequest = false ∧
      (compararAvenidas "1" "1").showsValidation = true) ∧
    ((compararAvenidas "1" "2").issuesRequest = true ∧
      (compararAvenidas "1" "2").showsValidation = false) :=
  ⟨(compararAvenidas_validates "1" "1").1 (Or.inr (Or.inr rfl)),
    (compararAvenidas_validates "1" "2").2 (by decide) (by decide) (by decide)⟩

/-- C7: a failed submit leaves the crime-report draft, the open modal
and the report under edit untouched (only an alert is raised), and a
failed incident submit leaves that draft untouched and only sets the
error banner. -/
theorem submit_failure_preserves_draft (s : RDState) (t : SinState) (detail : String) :
    (handleSubmitRD s false).1.formData = s.formData ∧
    (handleSubmitRD s false).1.showModal = s.showModal ∧
    (handleSubmitRD s false).1.editingReporte = s.editingReporte ∧
    (handleSubmitRD s false).1 = s ∧
    (handleSubmitRD s false).2 = Feedback.alertMsg "Error al guardar el reporte" ∧
    (handleSubmitSin t false detail).1.form = t.form ∧
    (handleSubmitSin t false detail).1.error = some detail ∧
    (handleSubmitSin t false detail).2 = Feedback.alertMsg detail :=
  ⟨rfl, rfl, rfl, rfl, rfl, rfl, rfl, rfl⟩

/-- C9: when the index-of-safety load fails, the displayed street list
is replaced by the three hardcoded sample records (Av. Perón 8.5, Calle
Rivadavia 3.2, Ruta 38 6.8) and the error banner is set — whatever the
previous state was. -/
theorem cargarDatos_failure_installs_fallback (s : RS2State) :
    (cargarDatosRS2Fail s).avenidas = fallbackAvenidas ∧
    (cargarDatosRS2Fail s).error =
      some "Error al cargar el índice de seguridad. Verifica que el backend esté corriendo." ∧
    fallbackAvenidas.map (fun a => (a.nombre, a.indice_peligrosidad)) =
      [("Av. Perón", (85 : ℚ) / 10), ("Calle Rivadavia", (32 : ℚ) / 10),
        ("Ruta 38", (68 : ℚ) / 10)] ∧
    fallbackAvenidas.length = 3 :=
  ⟨rfl, rfl, rfl, rfl⟩

/-- C6 counterexample: the street reference-list fetch of the
ReportesDelito page is caught but surfaces nothing the user can see —
its catch block only logs to the console. -/
theorem cargarAvenidas_failure_silent :
    caught CallSite.rdCargarAvenidas = true ∧
    onFailure CallSite.rdCargarAvenidas = Feedback.silent ∧
    Feedback.isVisible (onFailure CallSite.rdCargarAvenidas) = false :=
  ⟨rfl, rfl, rfl⟩

/-- C6 amended: every failing API call is caught at the view-model
boundary (no unhandled rejection), and every one except the
reference-list fetch (`cargarAvenidas`) and the tops fetch
(`cargarTops`) is converted to a user-visible banner or alert; those two
are swallowed with only a console log. -/
theorem failures_caught_mostly_visible (site : CallSite) :
    caught site = true ∧
    Feedback.isVisible (onFailure site) =
      (!(site == CallSite.rdCargarAvenidas) && !(site == CallSite.rs2CargarTops)) := by
  cases site <;> exact ⟨rfl, rfl⟩

/-- C4 counterexample: a crime-report draft filled through the form is
submitted verbatim — the `avenida_id` foreign key goes out as the
select's string, not a number, and the empty optional `descripcion` goes
out as the empty string, not `null`. -/
theorem reportePayload_not_normalized :
    (reportePayload draftEmptyDesc).descripcion = JsValue.jstr "" ∧
    JsValue.isNum (reportePayload draftEmptyDesc).avenida_id = false ∧
    (reportePayload draftEmptyDesc).avenida_id = JsValue.jstr "3" :=
  ⟨rfl, rfl, rfl⟩

/-- C4 amended: only the incidents form normalizes its payload — its
`handleSubmit` coerces `avenida_id`/`tipo_id` with `Number(...)` and
sends `null` for empty `observaciones` — while the crime-report form
submits its draft field-for-field, so `avenida_id` passes through
unchanged and an empty `descripcion` is sent as the empty string. -/
theorem payload_normalization_split :
    (∀ f : SiniestroForm,
      JsValue.isNum (siniestroPayload f).avenida_id = true ∧
      JsValue.isNum (siniestroPayload f).tipo_id = true ∧
      (f.observaciones = "" → (siniestroPayload f).observaciones = JsValue.jnull)) ∧
    (∀ d : ReporteForm,
      (reportePayload d).avenida_id = d.avenida_id ∧
      (reportePayload d).descripcion = JsValue.jstr d.descripcion) := by
  refine ⟨fun f => ⟨rfl, rfl, fun h => ?_⟩, fun d => ⟨rfl, rfl⟩⟩
  simp [siniestroPayload, strOrNull, h]

/-- Witness for the amended C4: on a concrete incident draft with empty
observations, the payload carries numeric foreign keys and a `null`
observations field. -/
theorem payload_normalization_split_witness :
    JsValue.isNum (siniestroPayload sinDraftEmptyObs).avenida_id = true ∧
    (siniestroPayload sinDraftEmptyObs).observaciones = JsValue.jnull :=
  ⟨(payload_normalization_split.1 sinDraftEmptyObs).1,
    (payload_normalization_split.1 sinDraftEmptyObs).2.2 rfl⟩

/-- C1 counterexample: in the dashboard batch where the statistics read
fails while both top-5 reads succeed with data, the successfully fetched
top-5 datasets are not committed — `Promise.all` rejects as a whole and
the single catch skips every commit. -/
theorem rs_batch_not_independent :
    batchStatsFail.stats = Except.error () ∧
    batchStatsFail.peligrosas = Except.ok [avDemo] ∧
    batchStatsFail.seguras = Except.ok [avDemo] ∧
    (cargarDatosRS rsInit batchStatsFail).topPeligrosas = [] ∧
    (cargarDatosRS rsInit batchStatsFail).topSeguras = [] ∧
    (cargarDatosRS rsInit batchStatsFail).estadisticas = none :=
  ⟨rfl, rfl, rfl, rfl, rfl, rfl⟩

/-- C1 amended: each dashboard batch is all-or-nothing.  If any of the
four reads fails, none of the four datasets is committed and one shared
error banner is set; only when all four succeed are all four committed.
The separate two-read tops batch behaves the same way (and is silent on
failure). -/
theorem rs_batch_all_or_nothing (s : RSState) (b : BatchOutcome) :
    (batchAllOk b = false →
      (cargarDatosRS s b).estadisticas = s.estadisticas ∧
      (cargarDatosRS s b).topPeligrosas = s.topPeligrosas ∧
      (cargarDatosRS s b).topSeguras = s.topSeguras ∧
      (cargarDatosRS s b).todasAvenidas = s.todasAvenidas ∧
      (cargarDatosRS s b).error =
        some "Error al cargar los datos. Por favor, intenta nuevamente.") ∧
    (batchAllOk b = true →
      ∃ st p sg t,
        b.stats = .ok st ∧ b.peligrosas = .ok p ∧ b.seguras = .ok sg ∧ b.todas = .ok t ∧
        (cargarDatosRS s b).estadisticas = some st ∧
        (cargarDatosRS s b).topPeligrosas = p ∧
        (cargarDatosRS s b).topSeguras = sg ∧
        (cargarDatosRS s b).todasAvenidas = t) ∧
    (∀ (s2 : RS2State) (p : List AvenidaIdx),
      (cargarTopsRS2 s2 (Except.error ()) (Except.ok p)).1 = s2 ∧
      (cargarTopsRS2 s2 (Except.error ()) (Except.ok p)).2 = Feedback.silent) := by
  obtain ⟨st, p, sg, t⟩ := b
  cases st <;> cases p <;> cases sg <;> cases t <;>
    refine ⟨?_, ?_, fun s2 q => ⟨rfl, rfl⟩⟩ <;> intro h <;>
    first
      | exact ⟨rfl, rfl, rfl, rfl, rfl⟩
      | exact ⟨_, _, _, _, rfl, rfl, rfl, rfl, rfl, rfl, rfl, rfl⟩
      | exact absurd h (by simp [batchAllOk])

/-- Witness for the amended C1: on the concrete batch whose statistics
read fails, nothing is committed and the shared banner is set. -/
theorem rs_batch_all_or_nothing_witness :
    (cargarDatosRS rsInit batchStatsFail).topPeligrosas = rsInit.topPeligrosas ∧
    (cargarDatosRS rsInit batchStatsFail).error =
      some "Error al cargar los datos. Por favor, intenta nuevamente." :=
  ⟨((rs_batch_all_or_nothing rsInit batchStatsFail).1 rfl).2.1,
    ((rs_batch_all_or_nothing rsInit batchStatsFail).1 rfl).2.2.2.2⟩

/-- C3 counterexample: a valid interleaving in which the response for
the old (mount) filter snapshot arrives after the response for the new
`"robo"` filter: the stale response is committed, so the final list is
the old snapshot's empty result while the current filter's data is the
one-report list. -/
theorem rd_stale_overwrite :
    validTrace server0 filtrosInit staleTrace = true ∧
    (lrun rdlInit staleTrace).filtros = filtrosRobo ∧
    (lrun rdlInit staleTrace).reportes = [] ∧
    server0 filtrosRobo = [repRobo] ∧
    decide ((lrun rdlInit staleTrace).reportes =
      server0 (lrun rdlInit staleTrace).filtros) = false := by
  exact ⟨by decide, rfl, rfl, rfl, by decide⟩

/-- C3 amended: `cargarDatos` keeps no request token and never compares
the response's filter snapshot with the current filters — every arriving
response is committed to the list unconditionally, so the displayed list
reflects whichever response arrived last (possibly a stale one), not
necessarily the current filter set. -/
theorem rd_arrive_commits_unconditionally (s : RDListState) (evs : List LEvent)
    (snap : Filtros) (data : List Reporte) :
    (lstep s (.arrive snap data)).reportes = data ∧
    (lstep s (.arrive snap data)).filtros = s.filtros ∧
    (lrun s (evs ++ [.arrive snap data])).reportes = data :=
  ⟨rfl, rfl, lrun_append_arrive s evs snap data⟩

/-- C5: whenever either create/edit form can fire its submit handler,
every `*_id` foreign key in the draft resolves against the currently
loaded reference list (its DOM value is the stringified id of a loaded
record), and an empty effective selection keeps the submit from firing
at all. -/
theorem submit_resolves_foreign_keys :
    (∀ (avenidas : List Avenida) (f : ReporteForm),
      rdSubmitFires avenidas f = true →
        ∃ a, a ∈ avenidas ∧ jsDomValue f.avenida_id = toString a.id) ∧
    (∀ (avenidas : List Avenida) (tipos : List TipoSiniestro) (g : SiniestroForm),
      sinSubmitFires avenidas tipos g = true →
        (∃ a, a ∈ avenidas ∧ jsDomValue g.avenida_id = toString a.id) ∧
        (∃ t, t ∈ tipos ∧ jsDomValue g.tipo_id = toString t.id)) ∧
    (∀ (avenidas : List Avenida) (f : ReporteForm),
      effectiveValue (avenidaOptions avenidas) (jsDomValue f.avenida_id) = "" →
        rdSubmitFires avenidas f = false) := by
  refine ⟨fun avs f h => ?_, fun avs tipos g h => ?_, fun avs f h => ?_⟩
  · simp only [rdSubmitFires, avenidaOptions, Bool.and_eq_true, Bool.not_eq_true',
      beq_eq_false_iff_ne, ne_eq] at h
    obtain ⟨⟨⟨⟨_, _⟩, hav⟩, _⟩, _⟩ := h
    have hmem := mem_of_effectiveValue_ne (avs.map fun a => toString a.id)
      (jsDomValue f.avenida_id) hav
    obtain ⟨a, ha, heq⟩ := List.mem_map.mp hmem
    exact ⟨a, ha, heq.symm⟩
  · simp only [sinSubmitFires, avenidaOptions, tipoOptions, Bool.and_eq_true,
      Bool.not_eq_true', beq_eq_false_iff_ne, ne_eq] at h
    obtain ⟨⟨⟨_, hav⟩, htp⟩, _⟩ := h
    have hmav := mem_of_effectiveValue_ne (avs.map fun a => toString a.id)
      (jsDomValue g.avenida_id) hav
    have hmtp := mem_of_effectiveValue_ne (tipos.map fun t => toString t.id)
      (jsDomValue g.tipo_id) htp
    obtain ⟨a, ha, heqa⟩ := List.mem_map.mp hmav
    obtain ⟨t, ht, heqt⟩ := List.mem_map.mp hmtp
    exact ⟨⟨a, ha, heqa.symm⟩, ⟨t, ht, heqt.symm⟩⟩
  · simp [rdSubmitFires, h]

/-- Witness for C5: with street 3 and incident-type 2 loaded, the
concrete drafts that can fire submit carry exactly those ids. -/
theorem submit_resolves_foreign_keys_witness :
    (∃ a, a ∈ avLoaded ∧ jsDomValue draftEmptyDesc.avenida_id = toString a.id) ∧
    (∃ t, t ∈ tipLoaded ∧ jsDomValue sinDraftEmptyObs.tipo_id = toString t.id) :=
  ⟨submit_resolves_foreign_keys.1 avLoaded draftEmptyDesc (by decide),
    (submit_resolves_foreign_keys.2.1 avLoaded tipLoaded sinDraftEmptyObs (by decide)).2⟩

/-- C8: displaying the client-held dataset [A(8.5), B(3.2), C(6.8)] —
the three records the aggregation view holds client-side — under the
danger-descending ordering yields [A, C, B], indices 8.5, 6.8, 3.2.
The ordering itself is modelled from the spec (see
`sortPeligrosidadDesc`): it is computed by the backend endpoint, which
is repository code absent from `src/`. -/
theorem danger_desc_yields_ACB :
    displayedNombres (sortPeligrosidadDesc fallbackAvenidas) =
      ["Av. Perón", "Ruta 38", "Calle Rivadavia"] ∧
    displayedIndices (sortPeligrosidadDesc fallbackAvenidas) =
      [(85 : ℚ) / 10, (68 : ℚ) / 10, (32 : ℚ) / 10] ∧
    (sortPeligrosidadDesc fallbackAvenidas).map (fun a => a.id) = [1, 3, 2] := by
  norm_num [fallbackAvenidas, sortPeligrosidadDesc, insertDesc, displayedNombres,
    displayedIndices]

/-- C10: the default draft and the draft after every reset carry
`usuario_id = 1`; along every event run, whenever no report is under
edit the draft (and hence any create payload) carries `usuario_id = 1`,
and under edit it carries the edited report's original user id. -/
theorem usuario_id_hardcoded (evs : List RDEvent) :
    initialFormData.usuario_id = 1 ∧
    (∀ s : RDState, (rdStep s RDEvent.reset).formData.usuario_id = 1) ∧
    ((rdRun rdInit evs).editingReporte = none →
      (rdRun rdInit evs).formData.usuario_id = 1 ∧
      (reportePayload (rdRun rdInit evs).formData).usuario_id = JsValue.jnum 1) ∧
    (∀ r, (rdRun rdInit evs).editingReporte = some r →
      (rdRun rdInit evs).formData.usuario_id = r.usuario_id) := by
  have hinv := rdInv_run rdInit rdInv_init evs
  refine ⟨rfl, fun s => rfl, fun hn => ?_, fun r hr => hinv.2 r hr⟩
  have h1 := hinv.1 hn
  exact ⟨h1, by simp [reportePayload, h1]⟩

/-- Witness for C10: after editing user 7's report and then resetting,
the draft is back to `usuario_id = 1`; while that report is under edit
the draft carries 7. -/
theorem usuario_id_hardcoded_witness :
    (rdRun rdInit [RDEvent.editar repDemo, RDEvent.reset]).formData.usuario_id = 1 ∧
    (rdRun rdInit [RDEvent.editar repDemo]).formData.usuario_id = repDemo.usuario_id :=
  ⟨((usuario_id_hardcoded [RDEvent.editar repDemo, RDEvent.reset]).2.2.1 rfl).1,
    (usuario_id_hardcoded [RDEvent.editar repDemo]).2.2.2 repDemo rfl⟩

end RutaProg
